import Mathlib

/-!
Verification of `regolith/helpers/a_presentationhelper.py`
(`PresentationAdderHelper.db_updater`), shallowly embedded in Lean 4.

Conventions of the embedding:
* Python strings are Lean `String`; `str.casefold` is modelled character-wise
  by `Char.toLower` (both the code and the specification apply the same fold,
  so claims never hinge on the multi-character special cases of casefold).
* Python truthiness of optional strings and lists (`if not rc.person`,
  `if not rc.id`, `if not rc.authors`, `if rc.notes`) is modelled explicitly:
  an absent value or an empty value is falsy.
* Dates are records of numerals; `dateutil` parsing of the free-form date
  strings is an external collaborator, so `db_updater` receives parsed dates.
* Exceptions are values of `PyErr`; external side effects (calendar calls,
  the re-auth flow, sleeps, inserts, prints) are collected in a trace of
  `Effect`s.  The result of the n-th call to `add_to_google_calendar` is
  given by an oracle `cal : Nat -> Bool`.
* The retry `while` loop of lines 139-143 has no termination guarantee, so
  it is embedded with explicit fuel; `none` means the fuel was exhausted.
-/

/-- A calendar date, as produced by `dateutil.parser.parse(s).date()`. -/
structure Date where
  year : Nat
  month : Nat
  day : Nat
deriving DecidableEq, Repr

/-- Python `str.casefold` on a single character, modelled by `Char.toLower`. -/
def casefoldChar (c : Char) : Char := c.toLower

/-- Python `str.casefold`, modelled character-wise. -/
def casefold (s : String) : String := String.mk (s.toList.map casefoldChar)

/-- Python `str.strip()` with no argument: remove leading and trailing
whitespace. -/
def pyStrip (s : String) : String :=
  String.mk (((s.toList.dropWhile Char.isWhitespace).reverse.dropWhile
    Char.isWhitespace).reverse)

/-- Python `str.split()` with no argument: split on runs of whitespace,
discarding empty pieces. -/
def pySplit (s : String) : List String :=
  ((s.toList.splitOnP Char.isWhitespace).map String.mk).filter (fun t => t ≠ "")

/-- Python `s[:2]`: the first two characters of `s` (fewer when `s` is
shorter). -/
def pyTake2 (s : String) : String := String.mk (s.toList.take 2)

instance {ε α : Type} [DecidableEq ε] [DecidableEq α] : DecidableEq (Except ε α) :=
  fun x y =>
    match x, y with
    | .ok a, .ok b =>
        if h : a = b then .isTrue (by rw [h]) else .isFalse (by simp [h])
    | .error a, .error b =>
        if h : a = b then .isTrue (by rw [h]) else .isFalse (by simp [h])
    | .ok _, .error _ => .isFalse (by simp)
    | .error _, .ok _ => .isFalse (by simp)

/-- Python truthiness of an optional string: `None` and `""` are falsy. -/
def optStrFalsy (s : Option String) : Bool := s.getD "" = ""

/-- Python truthiness of an optional list: `None` and `[]` are falsy. -/
def optListFalsy (l : Option (List String)) : Bool := (l.getD []).isEmpty

/-- Exceptions raised by `db_updater`. -/
inductive PyErr where
  | runtimeError (msg : String)
  | indexError
deriving DecidableEq, Repr

/-- The message of the RuntimeError raised when no person is set
(source lines 154-157). -/
def noPersonMsg : String :=
  "WARNING: no person been set. please rerun specifying authors," ++
  "or add your id, e.g., sbillinge, to the config.json file in ~/.config/regolith"

/-- The message of the RuntimeError raised on a duplicate key
(source lines 172-173). -/
def duplicateMsg : String :=
  "This entry appears to already exist in the collection"

/-- Source lines 158-162: `split_person = rc.person.strip().split()`, then
initials from the first characters of the first and last token when there are
at least two tokens, else the first two characters of the single token,
casefolded.  Indexing an empty token list raises IndexError. -/
def nameKeyE (person : String) : Except PyErr String :=
  let split_person := pySplit (pyStrip person)
  if 2 ≤ split_person.length then
    match split_person.head?, split_person.getLast? with
    | some first, some last =>
      match first.toList.head?, last.toList.head? with
      | some c1, some c2 => .ok (String.mk [casefoldChar c1, casefoldChar c2])
      | _, _ => .error .indexError
    | _, _ => .error .indexError
  else
    match split_person.head? with
    | some tok => .ok (casefold (pyTake2 tok))
    | none => .error .indexError

/-- Python `str(year)[2:]`: decimal representation with the first two
characters removed. -/
def yearStr (y : Nat) : String := String.mk ((Nat.repr y).data.drop 2)

/-- A natural number zero-padded to two decimal digits, as
`strftime(%x6dm)` renders months 1-12 (the format directive is percent-m). -/
def twoDigit (n : Nat) : String :=
  if n < 10 then "0" ++ Nat.repr n else Nat.repr n

/-- Source line 165: the place component of the key,
`join(rc.place.casefold().split()).strip()` on the empty separator:
case-folded place with all whitespace removed. -/
def placeKey (place : String) : String :=
  pyStrip (String.join (pySplit (casefold place)))

/-- Source line 165: the derived key
`str(begin_date.year)[2:] + strftime(percent-m) + name_key + underscore + place component`. -/
def derivedKey (begin_date : Date) (name_key place : String) : String :=
  yearStr begin_date.year ++ twoDigit begin_date.month ++ name_key ++ "_" ++ placeKey place

example : derivedKey ⟨2023, 5, 10⟩ "jd" "MIT Boston" = "2305jd_mitboston" := by decide
example : nameKeyE "Jane Doe" = .ok "jd" := by decide
example : nameKeyE "Cher" = .ok "ch" := by decide
example : nameKeyE "   " = .error .indexError := by decide

/-- The run control object, restricted to the attributes `db_updater` reads.
`person`, `authors`, `id` and `notes` are `Option`s because their
command-line default is Python `None`; `default_user_id` is an `Option`
because reading an absent attribute raises AttributeError (line 153).
`database` is the target database name resolved by `construct_global_ctx`. -/
structure RC where
  no_cal : Bool
  name : String
  place : String
  begin_date : Date
  end_date : Date
  person : Option String
  default_user_id : Option String
  authors : Option (List String)
  id : Option String
  abstract : String
  notes : Option (List String)
  webinar : Bool
  no_expense : Bool
  status : String
  title : String
  type : String
  database : String
deriving DecidableEq, Repr

/-- The calendar event dict built on source lines 130-135. -/
structure Event where
  summary : String
  location : String
  start : Date
  stop : Date
deriving DecidableEq, Repr

/-- The presentation document assembled on source lines 183-204.  Each field
is a key of the Python dict `pdoc`; optional fields are keys that the update
sequence only sometimes adds.  The dict key of `id` is the string id key. -/
structure PDoc where
  id : String
  abstract : String
  authors : List String
  begin_date : Date
  end_date : Date
  notes : Option (List String)
  webinar : Option Bool
  institution : Option String
  department : Option String
  location : Option String
  meeting_name : Option String
  project : List String
  status : String
  title : String
  type : String
deriving DecidableEq, Repr

/-- The context fields set on the run control before calling the expense
constructor (source lines 210-214). -/
structure ExpenseCtx where
  payee : String
  purpose : String
  whereLoc : String
  status : String
  business : Bool
deriving DecidableEq, Repr

/-- Modelled from the spec: `expense_constructor` lives in
`regolith.helpers.a_expensehelper`, which is not under src/.  Per the spec it
builds the companion expense record from the presentation key, the two dates,
and a context carrying payee, purpose, where, status and business fields; no
claim depends on its internals, so the record simply retains its inputs. -/
structure EDoc where
  key : String
  begin_date : Date
  end_date : Date
  ctx : ExpenseCtx
deriving DecidableEq, Repr

/-- Modelled from the spec: the external expense-record constructor
`build(key, begin_date, end_date, context) -> expense record`. -/
def expense_constructor (key : String) (b e : Date) (ctx : ExpenseCtx) : EDoc :=
  ⟨key, b, e, ctx⟩

/-- External side effects of one `db_updater` run, in order of occurrence. -/
inductive Effect where
  | calCreate (ev : Event) (ok : Bool)
  | authFlow
  | sleepOne
  | insertPres (db coll : String) (doc : PDoc)
  | insertExp (db coll : String) (doc : EDoc)
  | printed (s : String)
deriving DecidableEq, Repr

def TARGET_COLL : String := "presentations"

def EXPENSES_COLL : String := "expenses"

/-- Source lines 139-143:
`wait_bool, jump = 0, 0` followed by
`while not wait_bool or jump == 60: time.sleep(1); wait_bool = add_to_google_calendar(event); jump += 1`.
The oracle `cal` gives the result of the n-th calendar call; the first
argument is fuel (`none` when the loop has not exited within that many
iterations); the result carries the effects of the loop and the next call
index. -/
def calRetryLoop (cal : Nat → Bool) (ev : Event) :
    Nat → Bool → Nat → Nat → Option (List Effect × Nat)
  | 0, wait_bool, jump, n =>
      if !wait_bool || jump == 60 then none else some ([], n)
  | fuel + 1, wait_bool, jump, n =>
      if !wait_bool || jump == 60 then
        let wb := cal n
        match calRetryLoop cal ev fuel wb (jump + 1) (n + 1) with
        | none => none
        | some (effs, m) => some (.sleepOne :: .calCreate ev wb :: effs, m)
      else some ([], n)

/-- Source lines 150-157: `if not rc.person: rc.person = rc.default_user_id`,
raising RuntimeError when the attribute is absent. -/
def resolvePerson (rc : RC) : Except PyErr String :=
  if optStrFalsy rc.person then
    match rc.default_user_id with
    | some d => .ok d
    | none => .error (.runtimeError noPersonMsg)
  else .ok (rc.person.getD "")

/-- Source lines 164-167: the derived key unless an explicit id was given. -/
def keyOf (rc : RC) (name_key : String) : String :=
  if optStrFalsy rc.id then derivedKey rc.begin_date name_key rc.place
  else rc.id.getD ""

/-- The key computation of source lines 150-167 as one function: person
resolution, initials, then derived or explicit key. -/
def presKey (rc : RC) : Except PyErr String :=
  match resolvePerson rc with
  | .error e => .error e
  | .ok person =>
    match nameKeyE person with
    | .error e => .error e
    | .ok name_key => .ok (keyOf rc name_key)

/-- Source lines 191-192: the webinar flag forces `no_expense` on. -/
def effectiveNoExpense (rc : RC) : Bool := rc.webinar || rc.no_expense

/-- Source line 194: `rc.type in [seminar, colloquium]`. -/
def isSemCol (ty : String) : Bool := ty == "seminar" || ty == "colloquium"

/-- Source lines 189-190: `if rc.notes: pdoc.update(...)` — the notes key is
added only when the list is truthy. -/
def notesField (notes : Option (List String)) : Option (List String) :=
  match notes with
  | some (h :: t) => some (h :: t)
  | _ => none

/-- Source lines 175-204: assembly of the presentation document `pdoc`. -/
def buildPdoc (rc : RC) (key : String) (authors : List String)
    (begin_date end_date : Date) : PDoc :=
  { id := key
    abstract := rc.abstract
    authors := authors
    begin_date := begin_date
    end_date := end_date
    notes := notesField rc.notes
    webinar := if rc.webinar then some true else none
    institution := if isSemCol rc.type then some rc.place else none
    department := if isSemCol rc.type then some rc.name else none
    location := if isSemCol rc.type then none else some rc.place
    meeting_name := if isSemCol rc.type then none else some rc.name
    project := ["all"]
    status := rc.status
    title := rc.title
    type := rc.type }

/-- Source lines 129-143: the calendar block of `db_updater`.  Skipped when
`no_cal` is set; otherwise one `add_to_google_calendar` call, and on failure
the auth flow followed by the retry loop.  `none` when the retry loop does
not exit within `fuel` iterations. -/
def calPhase (rc : RC) (cal : Nat → Bool) (fuel : Nat) : Option (List Effect) :=
  if !rc.no_cal then
    let event : Event := ⟨rc.name, rc.place, rc.begin_date, rc.end_date⟩
    let cal_update_bool := cal 0
    if !cal_update_bool then
      match calRetryLoop cal event fuel false 0 1 with
      | none => none
      | some (effs, _) =>
          some (Effect.calCreate event cal_update_bool :: Effect.authFlow :: effs)
    else some [Effect.calCreate event cal_update_bool]
  else some []

/-- Source lines 146-218 of `db_updater`: everything after the calendar
block.  `coll` is the in-memory snapshot `gtx[rc.coll]`, represented by the
id of each record (the only field the method reads).  On a raised exception
the effect list is empty (the raise aborts before any insert or print).
`authors.headD` stands for the Python expression `authors[0]`, which cannot
fail because `authors` is never empty at that point. -/
def dbCore (rc : RC) (coll : List String) : List Effect × Except PyErr Unit :=
  match resolvePerson rc with
  | .error e => ([], .error e)
  | .ok person =>
    match nameKeyE person with
    | .error e => ([], .error e)
    | .ok name_key =>
      let key := keyOf rc name_key
      let pdocl := coll.filter (fun doc => doc == key)
      if 0 < pdocl.length then
        ([], .error (.runtimeError duplicateMsg))
      else
        let authors := if optListFalsy rc.authors then [person]
                       else rc.authors.getD []
        let pdoc := buildPdoc rc key authors rc.begin_date rc.end_date
        let effs1 := [Effect.insertPres rc.database TARGET_COLL pdoc,
                      Effect.printed (key ++ " has been added in " ++ TARGET_COLL)]
        if !effectiveNoExpense rc then
          let ctx : ExpenseCtx :=
            { payee := authors.headD ""
              purpose := "give " ++ rc.type ++ " presentation at " ++
                rc.name ++ ", " ++ rc.place
              whereLoc := "tbd"
              status := "unsubmitted"
              business := false }
          let edoc := expense_constructor key rc.begin_date rc.end_date ctx
          (effs1 ++ [Effect.insertExp rc.database EXPENSES_COLL edoc,
                     Effect.printed (key ++ " has been added in " ++ EXPENSES_COLL)],
           .ok ())
        else (effs1, .ok ())

/-- Source lines 126-219: `PresentationAdderHelper.db_updater`, as the
calendar block followed by the rest.  `cal` is the calendar oracle giving
the result of each successive `add_to_google_calendar` call; `fuel` bounds
the retry loop, and the result is `none` when the loop does not exit within
that bound.  On termination the result carries the ordered effect trace and
either `ok` or the raised exception. -/
def db_updater (rc : RC) (coll : List String) (cal : Nat → Bool) (fuel : Nat) :
    Option (List Effect × Except PyErr Unit) :=
  match calPhase rc cal fuel with
  | none => none
  | some calEffs =>
      let rest := dbCore rc coll
      some (calEffs ++ rest.1, rest.2)

/-- An insert effect: a write to the document store. -/
def Effect.isInsert : Effect → Bool
  | .insertPres _ _ _ => true
  | .insertExp _ _ _ => true
  | _ => false

/-- An expense-insert effect. -/
def Effect.isInsertExp : Effect → Bool
  | .insertExp _ _ _ => true
  | _ => false

/-- A sample run control: presenter Jane Doe, begin date 2023-05-10, place
MIT Boston, type seminar, no explicit id, all flags at their defaults,
calendar suppressed. -/
def rcJane : RC :=
  { no_cal := true
    name := "Group Seminar"
    place := "MIT Boston"
    begin_date := ⟨2023, 5, 10⟩
    end_date := ⟨2023, 5, 10⟩
    person := some "Jane Doe"
    default_user_id := none
    authors := none
    id := none
    abstract := "tbd"
    notes := none
    webinar := false
    no_expense := false
    status := "accepted"
    title := "tbd"
    type := "seminar"
    database := "db0" }

/-- With an oracle on which every calendar call fails, the retry loop exits
within no finite fuel when entered with a falsy `wait_bool`. -/
theorem calRetryLoop_allFalse (ev : Event) :
    ∀ (fuel jump n : Nat),
      calRetryLoop (fun _ => false) ev fuel false jump n = none := by
  intro fuel
  induction fuel with
  | zero => intro jump n; simp [calRetryLoop]
  | succ f ih => intro jump n; simp [calRetryLoop, ih]

/-- The retry loop performs no store insert. -/
theorem calRetryLoop_no_insert (cal : Nat → Bool) (ev : Event) :
    ∀ (fuel : Nat) (wb : Bool) (jump n m : Nat) (effs : List Effect),
      calRetryLoop cal ev fuel wb jump n = some (effs, m) →
      effs.all (fun e => !e.isInsert) = true := by
  intro fuel
  induction fuel with
  | zero =>
      intro wb jump n m effs h
      simp only [calRetryLoop] at h
      split at h
      · exact absurd h (by simp)
      · simp only [Option.some.injEq, Prod.mk.injEq] at h
        rw [← h.1]
        rfl
  | succ f ih =>
      intro wb jump n m effs h
      simp only [calRetryLoop] at h
      split at h
      · split at h
        · exact absurd h (by simp)
        · next effs' m' heq =>
            simp only [Option.some.injEq, Prod.mk.injEq] at h
            have hall := ih _ _ _ _ _ heq
            rw [← h.1]
            simp only [List.all_cons, Bool.and_eq_true]
            exact ⟨rfl, rfl, hall⟩
      · simp only [Option.some.injEq, Prod.mk.injEq] at h
        rw [← h.1]
        rfl

/-- The calendar phase performs no store insert. -/
theorem calPhase_no_insert (rc : RC) (cal : Nat → Bool) (fuel : Nat)
    (calEffs : List Effect) (h : calPhase rc cal fuel = some calEffs) :
    calEffs.all (fun e => !e.isInsert) = true := by
  simp only [calPhase] at h
  split at h
  · split at h
    · split at h
      · exact absurd h (by simp)
      · next effs' m' heq =>
          have hall := calRetryLoop_no_insert cal _ fuel false 0 1 m' effs' heq
          simp only [Option.some.injEq] at h
          rw [← h]
          simp only [List.all_cons, Bool.and_eq_true]
          exact ⟨rfl, rfl, hall⟩
    · simp only [Option.some.injEq] at h
      rw [← h]
      rfl
  · simp only [Option.some.injEq] at h
    rw [← h]
    rfl

/-- A terminating `db_updater` run splits into the calendar phase followed
by the core. -/
theorem db_updater_eq (rc : RC) (coll : List String) (cal : Nat → Bool)
    (fuel : Nat) (effs : List Effect) (res : Except PyErr Unit)
    (h : db_updater rc coll cal fuel = some (effs, res)) :
    ∃ calEffs, calPhase rc cal fuel = some calEffs ∧
      effs = calEffs ++ (dbCore rc coll).1 ∧ res = (dbCore rc coll).2 := by
  simp only [db_updater] at h
  split at h
  · exact absurd h (by simp)
  · next calEffs heq =>
      simp only [Option.some.injEq, Prod.mk.injEq] at h
      exact ⟨calEffs, heq, h.1.symm, h.2.symm⟩

/-- When the key computation succeeds with a key already present in the
snapshot, the core aborts with the duplicate error and no effects. -/
theorem dbCore_duplicate (rc : RC) (coll : List String) (key : String)
    (hkey : presKey rc = .ok key) (hmem : key ∈ coll) :
    dbCore rc coll = ([], .error (.runtimeError duplicateMsg)) := by
  cases hres : resolvePerson rc with
  | error e => simp [presKey, hres, Except.bind] at hkey
  | ok person =>
    cases hnk : nameKeyE person with
    | error e => simp [presKey, hres, hnk, Except.bind] at hkey
    | ok nk =>
      have hk : keyOf rc nk = key := by
        simp [presKey, hres, hnk, Except.bind, pure, Except.pure] at hkey
        exact hkey
      have hpos : 0 < (coll.filter (fun doc => doc == keyOf rc nk)).length := by
        apply List.length_pos.mpr
        intro hnil
        have hmem2 : keyOf rc nk ∈ coll.filter (fun doc => doc == keyOf rc nk) := by
          simp only [List.mem_filter]
          exact ⟨hk ▸ hmem, by simp⟩
        rw [hnil] at hmem2
        exact absurd hmem2 (by simp)
      simp [dbCore, hres, hnk, hpos]

/-- The sample run control with the calendar not suppressed. -/
def rcJaneCal : RC := { rcJane with no_cal := false }

/-- C1: the claim states that the retry loop stops after the attempt counter
reaches 60 regardless of outcome.  The code loops while
`not wait_bool or jump == 60`, so a persistently failing calendar call keeps
`wait_bool` falsy and the loop never exits: with the all-failing oracle,
`db_updater` does not terminate within any fuel bound.  This contradicts the
claim (and the spec contract of a bounded roughly-60-attempt retry, which is
clearly the intent: the condition is a precedence slip for
`not (wait_bool or jump == 60)`), so the code, not the claim, is wrong. -/
theorem retry_loop_unbounded_on_persistent_failure (rc : RC)
    (coll : List String) (fuel : Nat) (hnc : rc.no_cal = false) :
    db_updater rc coll (fun _ => false) fuel = none := by
  simp [db_updater, calPhase, hnc, calRetryLoop_allFalse]

/-- Witness for C1 at a concrete input: sixty units of fuel do not suffice. -/
theorem retry_loop_unbounded_on_persistent_failure_witness :
    db_updater rcJaneCal [] (fun _ => false) 60 = none :=
  retry_loop_unbounded_on_persistent_failure rcJaneCal [] 60 rfl

/-- When the calendar is not suppressed, the first effect of the calendar
phase is the creation call for the event built from the run control. -/
theorem calPhase_head (rc : RC) (cal : Nat → Bool) (fuel : Nat)
    (calEffs : List Effect) (hnc : rc.no_cal = false)
    (h : calPhase rc cal fuel = some calEffs) :
    calEffs.head? = some (Effect.calCreate
      ⟨rc.name, rc.place, rc.begin_date, rc.end_date⟩ (cal 0)) := by
  simp only [calPhase, hnc, Bool.not_false, if_true] at h
  split at h
  · split at h
    · exact absurd h (by simp)
    · simp only [Option.some.injEq] at h
      rw [← h]
      rfl
  · simp only [Option.some.injEq] at h
    rw [← h]
    rfl

/-- C2: when the snapshot already contains a record whose id equals the
derived or explicit key, the run fails with the duplicate RuntimeError and
performs no insert: nothing is persisted. -/
theorem duplicate_key_aborts_without_insert (rc : RC) (coll : List String)
    (cal : Nat → Bool) (fuel : Nat) (effs : List Effect)
    (res : Except PyErr Unit) (key : String)
    (hkey : presKey rc = .ok key) (hmem : key ∈ coll)
    (h : db_updater rc coll cal fuel = some (effs, res)) :
    res = .error (.runtimeError duplicateMsg) ∧
    effs.all (fun e => !e.isInsert) = true := by
  obtain ⟨calEffs, hcal, heffs, hres⟩ := db_updater_eq rc coll cal fuel effs res h
  rw [dbCore_duplicate rc coll key hkey hmem] at heffs hres
  refine ⟨hres, ?_⟩
  rw [heffs, List.append_nil]
  exact calPhase_no_insert rc cal fuel calEffs hcal

/-- Witness for C2: adding the Jane Doe presentation over a snapshot that
already holds the key aborts with the duplicate error and no insert. -/
theorem duplicate_key_aborts_without_insert_witness :
    (Except.error (PyErr.runtimeError duplicateMsg) : Except PyErr Unit) =
      .error (.runtimeError duplicateMsg) ∧
    ([] : List Effect).all (fun e => !e.isInsert) = true :=
  duplicate_key_aborts_without_insert rcJane ["2305jd_mitboston"]
    (fun _ => true) 0 [] (.error (.runtimeError duplicateMsg))
    "2305jd_mitboston" (by decide) (by decide) (by decide)

/-- The accumulator of the core decimal printer is appended to the result. -/
theorem toDigitsCore_acc (b : Nat) :
    ∀ (f n : Nat) (l : List Char),
      Nat.toDigitsCore b f n l = Nat.toDigitsCore b f n [] ++ l := by
  intro f
  induction f with
  | zero => intro n l; simp [Nat.toDigitsCore]
  | succ f ih =>
      intro n l
      simp only [Nat.toDigitsCore]
      by_cases h : n / b = 0
      · simp [h]
      · simp only [h, if_false]
        rw [ih (n / b) (Nat.digitChar (n % b) :: l),
            ih (n / b) [Nat.digitChar (n % b)]]
        simp

/-- The core decimal printer does not depend on its fuel once the fuel
exceeds the number being printed. -/
theorem toDigitsCore_fuel :
    ∀ (f1 f2 n : Nat) (l : List Char), n < f1 → n < f2 →
      Nat.toDigitsCore 10 f1 n l = Nat.toDigitsCore 10 f2 n l := by
  intro f1
  induction f1 with
  | zero => intro f2 n l h1 h2; omega
  | succ f ih =>
      intro f2 n l h1 h2
      cases f2 with
      | zero => omega
      | succ g =>
          simp only [Nat.toDigitsCore]
          by_cases h : n / 10 = 0
          · simp [h]
          · simp only [h, if_false]
            exact ih g (n / 10) _ (by omega) (by omega)

/-- Peeling the last decimal digit of a number of at least two digits. -/
theorem toDigits_peel (n : Nat) (h : 10 ≤ n) :
    Nat.toDigits 10 n = Nat.toDigits 10 (n / 10) ++ [Nat.digitChar (n % 10)] := by
  have hne : n / 10 ≠ 0 := by omega
  simp only [Nat.toDigits, Nat.toDigitsCore, hne, if_false]
  rw [toDigitsCore_acc]
  congr 1
  exact toDigitsCore_fuel n (n / 10 + 1) (n / 10) [] (by omega) (by omega)

/-- A single decimal digit prints as its digit character. -/
theorem toDigits_single (n : Nat) (h : n < 10) :
    Nat.toDigits 10 n = [Nat.digitChar n] := by
  have h0 : n / 10 = 0 := by omega
  simp [Nat.toDigits, Nat.toDigitsCore, h0, Nat.mod_eq_of_lt h]

/-- The characters of `Nat.repr` are the decimal digit characters. -/
theorem repr_data (n : Nat) : (Nat.repr n).data = Nat.toDigits 10 n := rfl

/-- The decimal representation of a four-digit number, character by
character. -/
theorem repr_four (y : Nat) (h1 : 1000 ≤ y) (h2 : y ≤ 9999) :
    (Nat.repr y).data = [Nat.digitChar (y / 1000), Nat.digitChar (y / 100 % 10),
      Nat.digitChar (y / 10 % 10), Nat.digitChar (y % 10)] := by
  rw [repr_data, toDigits_peel y (by omega), toDigits_peel (y / 10) (by omega),
      toDigits_peel (y / 10 / 10) (by omega),
      toDigits_single (y / 10 / 10 / 10) (by omega)]
  have e1 : y / 10 / 10 = y / 100 := by omega
  have e2 : y / 10 / 10 / 10 = y / 1000 := by omega
  have e3 : y / 10 / 10 % 10 = y / 100 % 10 := by omega
  rw [e2, e3]
  simp

/-- The characters of `twoDigit` for a number below 100. -/
theorem twoDigit_data (m : Nat) (h : m < 100) :
    (twoDigit m).data = [Nat.digitChar (m / 10), Nat.digitChar (m % 10)] := by
  by_cases h10 : m < 10
  · have h0 : m / 10 = 0 := by omega
    have hm : m % 10 = m := by omega
    simp [twoDigit, h10, h0, hm, String.data_append, repr_data,
      toDigits_single m h10]
    rfl
  · have : (Nat.repr m).data = Nat.toDigits 10 m := repr_data m
    simp only [twoDigit, if_neg h10]
    rw [repr_data, toDigits_peel m (by omega), toDigits_single (m / 10) (by omega)]
    rfl

/-- For a four-digit year, dropping the first two characters of the decimal
representation leaves exactly the zero-padded last two digits. -/
theorem yearStr_four_digit (y : Nat) (h1 : 1000 ≤ y) (h2 : y ≤ 9999) :
    yearStr y = twoDigit (y % 100) := by
  apply String.ext
  show ((Nat.repr y).data.drop 2) = (twoDigit (y % 100)).data
  rw [repr_four y h1 h2, twoDigit_data (y % 100) (by omega)]
  have a1 : y / 10 % 10 = y % 100 / 10 := by omega
  have a2 : y % 10 = y % 100 % 10 := by omega
  rw [List.drop, List.drop, List.drop, a1, a2]

/-- The derived key exactly as claim C3 words it: the two-digit year and the
two-digit month of the begin date, the initials, an underscore, and the place
with all whitespace removed and case-folded. -/
def claimDerivedKey (d : Date) (name_key place : String) : String :=
  twoDigit (d.year % 100) ++ twoDigit d.month ++ name_key ++ "_" ++ placeKey place

/-- A run control whose begin date has a three-digit year: presenter Jane
Doe, begin date 0500-05-10, place X, type seminar, no explicit id. -/
def rc500 : RC := { rcJane with begin_date := ⟨500, 5, 10⟩, place := "X" }

/-- C3 counterexample: for the invocation with begin year 500 the derived
key starts with the single character 0 (the decimal year 500 with its first
two characters removed), not with the two-digit year 00: the claimed format
YYMM then initials then underscore then place gives a different key. -/
theorem derived_key_format_cex :
    presKey rc500 = .ok "005jd_x" ∧
    claimDerivedKey rc500.begin_date "jd" rc500.place = "0005jd_x" ∧
    ("005jd_x" : String) ≠ "0005jd_x" := by
  refine ⟨by decide, by decide, by decide⟩

/-- C3 amended: for every invocation without an explicit id whose begin date
has a four-digit year, the derived key equals the claimed format, the
concatenation of the two-digit year, the two-digit month, the initials, an
underscore, and the place case-folded with all whitespace removed.
Determinism is immediate: the key is a pure function of the inputs. -/
theorem derived_key_format (rc : RC) (name_key : String)
    (hy1 : 1000 ≤ rc.begin_date.year) (hy2 : rc.begin_date.year ≤ 9999)
    (hid : optStrFalsy rc.id = true) :
    keyOf rc name_key = claimDerivedKey rc.begin_date name_key rc.place := by
  simp only [keyOf, hid, if_true, derivedKey, claimDerivedKey,
    yearStr_four_digit rc.begin_date.year hy1 hy2]

/-- Witness for the amended C3 at the Jane Doe invocation. -/
theorem derived_key_format_witness :
    keyOf rcJane "jd" = claimDerivedKey rcJane.begin_date "jd" rcJane.place :=
  derived_key_format rcJane "jd" (by decide) (by decide) (by decide)

/-- C4: with at least two whitespace-separated tokens the initials are the
case-folded first characters of the first and last token; with a single
token they are the case-folded first two characters of that token. -/
theorem initials_rule (s f l : String) (ms : List String)
    (c1 : Char) (r1 : List Char) (c2 : Char) (r2 : List Char) :
    (pySplit (pyStrip s) = f :: ms ++ [l] → f.data = c1 :: r1 →
      l.data = c2 :: r2 →
      nameKeyE s = .ok (String.mk [casefoldChar c1, casefoldChar c2]))
    ∧ (pySplit (pyStrip s) = [f] →
      nameKeyE s = .ok (casefold (pyTake2 f))) := by
  constructor
  · intro hsplit hf hl
    have hlen : 2 ≤ (f :: ms ++ [l]).length := by
      simp only [List.length_cons, List.length_append, List.length_singleton]
      omega
    have hlast : (f :: ms ++ [l]).getLast? = some l := by
      rw [show f :: ms ++ [l] = (f :: ms) ++ [l] from rfl]
      exact List.getLast?_concat _
    have hhead : (f :: ms ++ [l]).head? = some f := rfl
    have hfh : f.toList.head? = some c1 := by
      rw [show f.toList = c1 :: r1 from hf]; exact rfl
    have hlh : l.toList.head? = some c2 := by
      rw [show l.toList = c2 :: r2 from hl]; exact rfl
    simp only [nameKeyE, hsplit, if_pos hlen, hhead, hlast, hfh, hlh]
  · intro hsplit
    simp [nameKeyE, hsplit]

/-- Witness for C4 at Jane Doe (two tokens) and Cher (one token). -/
theorem initials_rule_witness :
    nameKeyE "Jane Doe" = .ok (String.mk [casefoldChar 'J', casefoldChar 'D']) ∧
    nameKeyE "Cher" = .ok (casefold (pyTake2 "Cher")) :=
  ⟨(initials_rule "Jane Doe" "Jane" "Doe" [] 'J' ['a', 'n', 'e'] 'D' ['o', 'e']).1
      (by decide) (by decide) (by decide),
   (initials_rule "Cher" "Cher" "Cher" [] 'C' [] 'C' []).2 (by decide)⟩

/-- The presentation document built for the `rcJane` invocation. -/
def pdocJane : PDoc :=
  { id := "2305jd_mitboston"
    abstract := "tbd"
    authors := ["Jane Doe"]
    begin_date := ⟨2023, 5, 10⟩
    end_date := ⟨2023, 5, 10⟩
    notes := none
    webinar := none
    institution := some "MIT Boston"
    department := some "Group Seminar"
    location := none
    meeting_name := none
    project := ["all"]
    status := "accepted"
    title := "tbd"
    type := "seminar" }

/-- The effect trace of the `rcJane` invocation over an empty snapshot. -/
def effsJane : List Effect :=
  [Effect.insertPres "db0" TARGET_COLL pdocJane,
   Effect.printed "2305jd_mitboston has been added in presentations",
   Effect.insertExp "db0" EXPENSES_COLL
     ⟨"2305jd_mitboston", ⟨2023, 5, 10⟩, ⟨2023, 5, 10⟩,
      ⟨"Jane Doe", "give seminar presentation at Group Seminar, MIT Boston",
       "tbd", "unsubmitted", false⟩⟩,
   Effect.printed "2305jd_mitboston has been added in expenses"]

/-- C5 counterexample: for presenter Jane Doe, begin date 2023-05-10, place
MIT Boston, type seminar and no explicit id, the derived key is
2305jd_mitboston (the month renders as the zero-padded decimal 05), not the
claimed 23majd_mitboston. -/
theorem jane_doe_key_cex :
    presKey rcJane = .ok "2305jd_mitboston" ∧
    ("2305jd_mitboston" : String) ≠ "23majd_mitboston" :=
  ⟨by decide, by decide⟩

/-- C5 amended: the same invocation derives the key 2305jd_mitboston, and
the built record carries institution MIT Boston and department equal to the
name field, with no location or meeting_name. -/
theorem jane_doe_run :
    db_updater rcJane [] (fun _ => true) 0 = some (effsJane, .ok ()) ∧
    pdocJane.institution = some "MIT Boston" ∧
    pdocJane.department = some rcJane.name ∧
    pdocJane.location = none ∧
    pdocJane.meeting_name = none :=
  ⟨by decide, rfl, rfl, rfl, rfl⟩

/-- The sample run control with a non-seminar type. -/
def rcConf : RC := { rcJane with type := "conference" }

/-- C6: a seminar or colloquium record carries institution = place and
department = name and omits location and meeting_name; any other type
carries location = place and meeting_name = name and omits institution and
department. -/
theorem type_fields_rule (rc : RC) (key : String) (authors : List String)
    (b e : Date) :
    ((rc.type = "seminar" ∨ rc.type = "colloquium") →
      (buildPdoc rc key authors b e).institution = some rc.place ∧
      (buildPdoc rc key authors b e).department = some rc.name ∧
      (buildPdoc rc key authors b e).location = none ∧
      (buildPdoc rc key authors b e).meeting_name = none)
    ∧ (rc.type ≠ "seminar" ∧ rc.type ≠ "colloquium" →
      (buildPdoc rc key authors b e).location = some rc.place ∧
      (buildPdoc rc key authors b e).meeting_name = some rc.name ∧
      (buildPdoc rc key authors b e).institution = none ∧
      (buildPdoc rc key authors b e).department = none) := by
  constructor
  · intro h
    have hb : isSemCol rc.type = true := by
      rcases h with h | h <;> simp [isSemCol, h]
    simp [buildPdoc, hb]
  · intro h
    have hb : isSemCol rc.type = false := by
      simp [isSemCol, h.1, h.2]
    simp [buildPdoc, hb]

/-- Witness for C6 at a seminar and at a conference invocation. -/
theorem type_fields_rule_witness :
    ((buildPdoc rcJane "k" ["Jane Doe"] ⟨2023, 5, 10⟩ ⟨2023, 5, 10⟩).institution
        = some rcJane.place ∧
      (buildPdoc rcJane "k" ["Jane Doe"] ⟨2023, 5, 10⟩ ⟨2023, 5, 10⟩).department
        = some rcJane.name ∧
      (buildPdoc rcJane "k" ["Jane Doe"] ⟨2023, 5, 10⟩ ⟨2023, 5, 10⟩).location
        = none ∧
      (buildPdoc rcJane "k" ["Jane Doe"] ⟨2023, 5, 10⟩ ⟨2023, 5, 10⟩).meeting_name
        = none) ∧
    ((buildPdoc rcConf "k" ["Jane Doe"] ⟨2023, 5, 10⟩ ⟨2023, 5, 10⟩).location
        = some rcConf.place ∧
      (buildPdoc rcConf "k" ["Jane Doe"] ⟨2023, 5, 10⟩ ⟨2023, 5, 10⟩).meeting_name
        = some rcConf.name ∧
      (buildPdoc rcConf "k" ["Jane Doe"] ⟨2023, 5, 10⟩ ⟨2023, 5, 10⟩).institution
        = none ∧
      (buildPdoc rcConf "k" ["Jane Doe"] ⟨2023, 5, 10⟩ ⟨2023, 5, 10⟩).department
        = none) :=
  ⟨(type_fields_rule rcJane "k" ["Jane Doe"] ⟨2023, 5, 10⟩ ⟨2023, 5, 10⟩).1
      (Or.inl rfl),
   (type_fields_rule rcConf "k" ["Jane Doe"] ⟨2023, 5, 10⟩ ⟨2023, 5, 10⟩).2
      ⟨by decide, by decide⟩⟩

/-- An effect that is not an insert is in particular not an expense insert. -/
theorem Effect.not_insertExp_of_not_insert (e : Effect) (h : e.isInsert = false) :
    e.isInsertExp = false := by
  cases e <;> simp_all [Effect.isInsert, Effect.isInsertExp]

/-- With the webinar flag set, the core inserts a record carrying
`webinar = some true` and never inserts an expense. -/
theorem dbCore_webinar (rc : RC) (coll : List String) (hw : rc.webinar = true) :
    (∀ db c p, Effect.insertPres db c p ∈ (dbCore rc coll).1 →
      p.webinar = some true) ∧
    (dbCore rc coll).1.all (fun e => !e.isInsertExp) = true := by
  simp only [dbCore]
  cases hres : resolvePerson rc with
  | error e => simp
  | ok person =>
    cases hnk : nameKeyE person with
    | error e => simp [hnk]
    | ok nk =>
      simp only [hnk]
      split
      · simp
      · split
        · next hcond => exact absurd hcond (by simp [effectiveNoExpense, hw])
        · constructor
          · intro db c p hp
            simp only [List.mem_cons, List.not_mem_nil, or_false] at hp
            rcases hp with hp | hp
            · injection hp with h1 h2 h3
              subst h3
              simp [buildPdoc, hw]
            · simp at hp
          · rfl

/-- C7: with the webinar flag set, expense suppression is forced on
regardless of the original no-expense flag, the inserted presentation record
carries `webinar = some true`, and no expense record is inserted. -/
theorem webinar_forces_no_expense (rc : RC) (coll : List String)
    (cal : Nat → Bool) (fuel : Nat) (effs : List Effect)
    (res : Except PyErr Unit) (hw : rc.webinar = true)
    (h : db_updater rc coll cal fuel = some (effs, res)) :
    effectiveNoExpense rc = true ∧
    (∀ db c p, Effect.insertPres db c p ∈ effs → p.webinar = some true) ∧
    effs.all (fun e => !e.isInsertExp) = true := by
  obtain ⟨calEffs, hcal, heffs, hres⟩ := db_updater_eq rc coll cal fuel effs res h
  have hcalNoIns := calPhase_no_insert rc cal fuel calEffs hcal
  refine ⟨by simp [effectiveNoExpense, hw], ?_, ?_⟩
  · intro db c p hp
    rw [heffs] at hp
    rcases List.mem_append.mp hp with hp | hp
    · have hx := List.all_eq_true.mp hcalNoIns _ hp
      simp [Effect.isInsert] at hx
    · exact (dbCore_webinar rc coll hw).1 db c p hp
  · rw [heffs, List.all_append, Bool.and_eq_true]
    constructor
    · rw [List.all_eq_true] at hcalNoIns ⊢
      intro e he
      have h1 := hcalNoIns e he
      simp only [Bool.not_eq_true'] at h1 ⊢
      exact Effect.not_insertExp_of_not_insert e h1
    · exact (dbCore_webinar rc coll hw).2

/-- The sample run control with the webinar flag set and the no-expense flag
left at its default false. -/
def rcWeb : RC := { rcJane with webinar := true }

/-- The presentation document built for the `rcWeb` invocation. -/
def pdocWeb : PDoc := { pdocJane with webinar := some true }

/-- The effect trace of the `rcWeb` invocation over an empty snapshot. -/
def effsWeb : List Effect :=
  [Effect.insertPres "db0" TARGET_COLL pdocWeb,
   Effect.printed "2305jd_mitboston has been added in presentations"]

/-- Witness for C7 at a concrete webinar run with no-expense initially
false. -/
theorem webinar_forces_no_expense_witness :
    effectiveNoExpense rcWeb = true ∧
    pdocWeb.webinar = some true ∧
    effsWeb.all (fun e => !e.isInsertExp) = true :=
  ⟨(webinar_forces_no_expense rcWeb [] (fun _ => true) 0 effsWeb (.ok ())
      rfl (by decide)).1,
   (webinar_forces_no_expense rcWeb [] (fun _ => true) 0 effsWeb (.ok ())
      rfl (by decide)).2.1 "db0" TARGET_COLL pdocWeb (by decide),
   (webinar_forces_no_expense rcWeb [] (fun _ => true) 0 effsWeb (.ok ())
      rfl (by decide)).2.2⟩

/-- With a falsy person and no configured default, the core aborts with the
missing-person RuntimeError and no effects. -/
theorem dbCore_missing_person (rc : RC) (coll : List String)
    (hp : optStrFalsy rc.person = true) (hd : rc.default_user_id = none) :
    dbCore rc coll = ([], .error (.runtimeError noPersonMsg)) := by
  have hres : resolvePerson rc = .error (.runtimeError noPersonMsg) := by
    simp [resolvePerson, hp, hd]
  simp [dbCore, hres]

/-- With no authors supplied, any inserted presentation record carries the
single-element author list containing the resolved person. -/
theorem dbCore_default_authors (rc : RC) (coll : List String) (person : String)
    (ha : optListFalsy rc.authors = true) (hres : resolvePerson rc = .ok person) :
    ∀ db c p, Effect.insertPres db c p ∈ (dbCore rc coll).1 →
      p.authors = [person] := by
  simp only [dbCore, hres]
  cases hnk : nameKeyE person with
  | error e => simp [hnk]
  | ok nk =>
    simp only [hnk]
    by_cases hdup : 0 < (List.filter (fun doc => doc == keyOf rc nk) coll).length
    · simp [if_pos hdup]
    · rw [if_neg hdup]
      have hauth : (if optListFalsy rc.authors = true then [person]
          else rc.authors.getD []) = [person] := by simp [ha]
      rw [hauth]
      by_cases hexp : (!effectiveNoExpense rc) = true
      · rw [if_pos hexp]
        intro db c p hp
        simp only [List.mem_append, List.mem_cons, List.not_mem_nil,
          or_false] at hp
        rcases hp with (hp | hp) | (hp | hp)
        · injection hp with h1 h2 h3
          subst h3
          simp [buildPdoc]
        · exact absurd hp (by simp)
        · exact absurd hp (by simp)
        · exact absurd hp (by simp)
      · rw [if_neg hexp]
        intro db c p hp
        simp only [List.mem_cons, List.not_mem_nil, or_false] at hp
        rcases hp with hp | hp
        · injection hp with h1 h2 h3
          subst h3
          simp [buildPdoc]
        · exact absurd hp (by simp)

/-- C8: a missing presenter with no configured default aborts with the
missing-person RuntimeError and nothing persisted; when no authors list is
supplied, the inserted record's authors equal the singleton of the resolved
presenter. -/
theorem missing_presenter_or_default_authors (rc : RC) (coll : List String)
    (cal : Nat → Bool) (fuel : Nat) (effs : List Effect)
    (res : Except PyErr Unit)
    (h : db_updater rc coll cal fuel = some (effs, res)) :
    (optStrFalsy rc.person = true → rc.default_user_id = none →
      res = .error (.runtimeError noPersonMsg) ∧
      effs.all (fun e => !e.isInsert) = true) ∧
    (∀ person db c p, optListFalsy rc.authors = true →
      resolvePerson rc = .ok person → Effect.insertPres db c p ∈ effs →
      p.authors = [person]) := by
  obtain ⟨calEffs, hcal, heffs, hres⟩ := db_updater_eq rc coll cal fuel effs res h
  constructor
  · intro hp hd
    have h1 : (dbCore rc coll).1 = [] := by
      rw [dbCore_missing_person rc coll hp hd]
    have h2 : (dbCore rc coll).2 = .error (.runtimeError noPersonMsg) := by
      rw [dbCore_missing_person rc coll hp hd]
    refine ⟨hres.trans h2, ?_⟩
    rw [heffs, h1, List.append_nil]
    exact calPhase_no_insert rc cal fuel calEffs hcal
  · intro person db c p hA hR hmem
    rw [heffs] at hmem
    rcases List.mem_append.mp hmem with hm | hm
    · have hx := List.all_eq_true.mp
        (calPhase_no_insert rc cal fuel calEffs hcal) _ hm
      simp [Effect.isInsert] at hx
    · exact dbCore_default_authors rc coll person hA hR db c p hm

/-- The sample run control with no presenter and no configured default. -/
def rcNoPerson : RC := { rcJane with person := none, default_user_id := none }

/-- Witness for C8: the missing-person abort at a concrete input, and the
default singleton author list of the Jane Doe run. -/
theorem missing_presenter_or_default_authors_witness :
    ((Except.error (PyErr.runtimeError noPersonMsg) : Except PyErr Unit) =
        .error (.runtimeError noPersonMsg) ∧
      ([] : List Effect).all (fun e => !e.isInsert) = true) ∧
    pdocJane.authors = ["Jane Doe"] :=
  ⟨(missing_presenter_or_default_authors rcNoPerson [] (fun _ => true) 0 []
      (.error (.runtimeError noPersonMsg)) (by decide)).1 (by decide) rfl,
   (missing_presenter_or_default_authors rcJane [] (fun _ => true) 0 effsJane
      (.ok ()) (by decide)).2 "Jane Doe" "db0" TARGET_COLL pdocJane
      (by decide) (by decide) (by decide)⟩

/-- C9: when the calendar is not suppressed, the very first effect of a
terminating run is the calendar creation call, before presenter resolution,
key derivation and the duplicate check; in particular any run that aborts
with an error has already created the calendar event. -/
theorem calendar_event_precedes_abort (rc : RC) (coll : List String)
    (cal : Nat → Bool) (fuel : Nat) (effs : List Effect)
    (res : Except PyErr Unit) (hnc : rc.no_cal = false)
    (h : db_updater rc coll cal fuel = some (effs, res)) :
    effs.head? = some (Effect.calCreate
      ⟨rc.name, rc.place, rc.begin_date, rc.end_date⟩ (cal 0)) ∧
    Effect.calCreate ⟨rc.name, rc.place, rc.begin_date, rc.end_date⟩ (cal 0)
      ∈ effs := by
  obtain ⟨calEffs, hcal, heffs, hres⟩ := db_updater_eq rc coll cal fuel effs res h
  have hh := calPhase_head rc cal fuel calEffs hnc hcal
  have h1 : effs.head? = some (Effect.calCreate
      ⟨rc.name, rc.place, rc.begin_date, rc.end_date⟩ (cal 0)) := by
    rw [heffs]
    cases calEffs with
    | nil => exact absurd hh (by simp)
    | cons a t =>
        have ha : a = Effect.calCreate
            ⟨rc.name, rc.place, rc.begin_date, rc.end_date⟩ (cal 0) := by
          simpa using hh
        rw [List.cons_append, ha]
        exact rfl
  refine ⟨h1, ?_⟩
  cases effs with
  | nil => exact absurd h1 (by simp)
  | cons a t =>
      have ha : a = Effect.calCreate
          ⟨rc.name, rc.place, rc.begin_date, rc.end_date⟩ (cal 0) := by
        simpa using h1
      rw [ha]
      exact List.mem_cons_self _ _

/-- The calendar event of the Jane Doe invocation. -/
def evJane : Event := ⟨"Group Seminar", "MIT Boston", ⟨2023, 5, 10⟩, ⟨2023, 5, 10⟩⟩

/-- Witness for C9: a run that aborts on a duplicate key has already made
the calendar call, which is the first effect of its trace. -/
theorem calendar_event_precedes_abort_witness :
    ([Effect.calCreate evJane true] : List Effect).head? =
      some (Effect.calCreate
        ⟨rcJaneCal.name, rcJaneCal.place, rcJaneCal.begin_date,
         rcJaneCal.end_date⟩ ((fun _ => true) 0)) ∧
    Effect.calCreate
      ⟨rcJaneCal.name, rcJaneCal.place, rcJaneCal.begin_date,
       rcJaneCal.end_date⟩ ((fun _ => true) 0)
      ∈ ([Effect.calCreate evJane true] : List Effect) :=
  calendar_event_precedes_abort rcJaneCal ["2305jd_mitboston"] (fun _ => true)
    0 [Effect.calCreate evJane true] (.error (.runtimeError duplicateMsg))
    rfl (by decide)

/-- With a truthy person that is whitespace only, the core aborts with
IndexError: the empty token list is indexed at zero. -/
theorem dbCore_empty_person (rc : RC) (coll : List String) (s : String)
    (hp : rc.person = some s) (hnf : optStrFalsy rc.person = false)
    (hsplit : pySplit (pyStrip s) = []) :
    dbCore rc coll = ([], .error .indexError) := by
  have hnf' : optStrFalsy (some s) = false := hp ▸ hnf
  have hres : resolvePerson rc = .ok s := by
    simp [resolvePerson, hp, hnf']
  have hnk : nameKeyE s = .error .indexError := by
    simp [nameKeyE, hsplit]
  simp [dbCore, hres, hnk]

/-- C10: an explicit id does not bypass presenter processing: with the id
supplied, a falsy presenter with no configured default still aborts with the
missing-person RuntimeError, and a presenter that is whitespace only still
aborts with IndexError. -/
theorem explicit_id_still_processes_presenter (rc : RC) (coll : List String)
    (cal : Nat → Bool) (fuel : Nat) (effs : List Effect)
    (res : Except PyErr Unit) (_hid : optStrFalsy rc.id = false)
    (h : db_updater rc coll cal fuel = some (effs, res)) :
    (optStrFalsy rc.person = true → rc.default_user_id = none →
      res = .error (.runtimeError noPersonMsg)) ∧
    (∀ s, rc.person = some s → optStrFalsy rc.person = false →
      pySplit (pyStrip s) = [] → res = .error .indexError) := by
  obtain ⟨calEffs, hcal, heffs, hres⟩ := db_updater_eq rc coll cal fuel effs res h
  constructor
  · intro hp hd
    have h2 : (dbCore rc coll).2 = .error (.runtimeError noPersonMsg) := by
      rw [dbCore_missing_person rc coll hp hd]
    exact hres.trans h2
  · intro s hp hnf hsplit
    have h2 : (dbCore rc coll).2 = .error .indexError := by
      rw [dbCore_empty_person rc coll s hp hnf hsplit]
    exact hres.trans h2

/-- The sample run control with an explicit id, no presenter and no
configured default. -/
def rcNoPersonId : RC :=
  { rcJane with id := some "explicit", person := none, default_user_id := none }

/-- The sample run control with an explicit id and a whitespace-only
presenter. -/
def rcWsPerson : RC := { rcJane with id := some "explicit", person := some "   " }

/-- Witness for C10 at concrete inputs with an explicit id supplied. -/
theorem explicit_id_still_processes_presenter_witness :
    (Except.error (PyErr.runtimeError noPersonMsg) : Except PyErr Unit) =
      .error (.runtimeError noPersonMsg) ∧
    (Except.error PyErr.indexError : Except PyErr Unit) = .error .indexError :=
  ⟨(explicit_id_still_processes_presenter rcNoPersonId [] (fun _ => true) 0 []
      (.error (.runtimeError noPersonMsg)) (by decide) (by decide)).1
      (by decide) rfl,
   (explicit_id_still_processes_presenter rcWsPerson [] (fun _ => true) 0 []
      (.error PyErr.indexError) (by decide) (by decide)).2 "   " rfl
      (by decide) (by decide)⟩
